import Mathlib

/-!
Verification of `main.py` (Polymarket-markets-to-excel).

The script is embedded shallowly:
* a Python/JSON value is a `JValue`; a record (Python `dict`) is an
  association list `PyDict` (dict keys are unique, so first-match lookup
  agrees with Python lookup);
* Python truthiness, `str()` and `or`-chains are modelled explicitly;
* code that can raise is embedded in `Except String`, where `.error`
  models a raised exception;
* the network and the file system are parameters: `fetch_markets` takes
  the HTTP response obtained for each endpoint URL, and `write_excel`
  takes a flag saying whether the underlying file write succeeds.

Modelling notes: numbers are modelled as integers (no claim involves
floats); `str.strip()` and `str.lower()` are modelled by `pyStrip` and
`pyLower` below, which implement Python's ASCII behavior (the whitespace
and case tables agree with Python on every value the script exercises).
-/

/-- A Python/JSON value as handled by the script. -/
inductive JValue where
  | null
  | bool (b : Bool)
  | num (n : Int)
  | str (s : String)
  | list (xs : List JValue)
  | obj (fs : List (String × JValue))
deriving Repr

/-- A raw market record: a string-keyed mapping with arbitrary values. -/
abbrev PyDict := List (String × JValue)

/-- Python truthiness of a value. -/
def truthy : JValue → Bool
  | .null => false
  | .bool b => b
  | .num n => n ≠ 0
  | .str s => s ≠ ""
  | .list xs => !xs.isEmpty
  | .obj fs => !fs.isEmpty

mutual

/-- Python `repr()` of a value (as used by `str()` on containers). -/
def pyRepr : JValue → String
  | .null => "None"
  | .bool true => "True"
  | .bool false => "False"
  | .num n => toString n
  | .str s => "'" ++ s ++ "'"
  | .list xs => "[" ++ pyReprSeq xs ++ "]"
  | .obj fs => "\x7b" ++ pyReprFields fs ++ "\x7d"

/-- Comma-separated `repr`s of the elements of a list. -/
def pyReprSeq : List JValue → String
  | [] => ""
  | [x] => pyRepr x
  | x :: y :: xs => pyRepr x ++ ", " ++ pyReprSeq (y :: xs)

/-- Comma-separated `repr`s of the items of a dict. -/
def pyReprFields : List (String × JValue) → String
  | [] => ""
  | [(k, v)] => "'" ++ k ++ "': " ++ pyRepr v
  | (k, v) :: f :: fs => "'" ++ k ++ "': " ++ pyRepr v ++ ", " ++ pyReprFields (f :: fs)

end

/-- Python `str()` of a value. -/
def pyStr : JValue → String
  | .str s => s
  | v => pyRepr v

/-- The whitespace characters removed by `str.strip()`. -/
def pyIsSpace (c : Char) : Bool :=
  c == ' ' || c == '\t' || c == '\n' || c == '\x0d' || c == '\x0b' || c == '\x0c'

/-- Python `str.strip()`: remove leading and trailing whitespace. -/
def pyStrip (s : String) : String :=
  ⟨(((s.data.dropWhile pyIsSpace).reverse.dropWhile pyIsSpace)).reverse⟩

/-- Lower-case one character (ASCII). -/
def pyCharLower (c : Char) : Char :=
  if 65 ≤ c.toNat ∧ c.toNat ≤ 90 then Char.ofNat (c.toNat + 32) else c

/-- Python `str.lower()` (ASCII). -/
def pyLower (s : String) : String :=
  ⟨s.data.map pyCharLower⟩

instance {ε α : Type} [DecidableEq ε] [DecidableEq α] : DecidableEq (Except ε α) :=
  fun a b =>
    match a, b with
    | .ok x, .ok y =>
      if h : x = y then .isTrue (by rw [h]) else .isFalse (fun hh => h (Except.ok.inj hh))
    | .error x, .error y =>
      if h : x = y then .isTrue (by rw [h]) else .isFalse (fun hh => h (Except.error.inj hh))
    | .ok _, .error _ => .isFalse (fun hh => Except.noConfusion hh)
    | .error _, .ok _ => .isFalse (fun hh => Except.noConfusion hh)

/-- `m.get(k)`: the value under `k`, if present. -/
def dictGet (m : PyDict) (k : String) : Option JValue :=
  m.lookup k

/-- `m.get(k)` as an operand of Python `or`: a present truthy value, else
nothing (an absent key gives `None`, which is falsy). -/
def getTruthy (m : PyDict) (k : String) : Option JValue :=
  match dictGet m k with
  | some v => if truthy v then some v else none
  | none => none

/-- The title value picked by the `or`-chain in `extract_title_and_outcomes`
(lines 62-68 of `main.py`): first truthy value among `question`, `title`,
`name`, `slug`, else the literal `"Untitled Market"`. -/
def titleVal (m : PyDict) : JValue :=
  match getTruthy m "question" with
  | some v => v
  | none =>
    match getTruthy m "title" with
    | some v => v
    | none =>
      match getTruthy m "name" with
      | some v => v
      | none =>
        match getTruthy m "slug" with
        | some v => v
        | none => .str "Untitled Market"

/-- Lines 71-74 of `main.py`: the `outcomes` variable after the first
lookup. `some` iff the `outcomes` field holds a non-empty list; each
element stringified. -/
def outcomesPrimary (m : PyDict) : Option (List String) :=
  match dictGet m "outcomes" with
  | some (.list xs) => if xs.isEmpty then none else some (xs.map pyStr)
  | _ => none

/-- Lines 76-78 of `main.py`: the `outcomes` variable after the
`outcomeNames` fallback. The fallback fires when the first lookup found
nothing and `outcomeNames` holds a list (possibly empty: the source does
not test non-emptiness here, but an empty result is falsy and is treated
downstream exactly like `None`). -/
def outcomesAfterNames (m : PyDict) : Option (List String) :=
  match outcomesPrimary m with
  | some os => some os
  | none =>
    match dictGet m "outcomeNames" with
    | some (.list xs) => some (xs.map pyStr)
    | _ => none

/-- Python falsiness of the `outcomes` variable (`None` or an empty list). -/
def pyFalsyOpt : Option (List String) → Bool
  | none => true
  | some [] => true
  | some (_ :: _) => false

/-- Line 82 of `main.py`: the value of `m.get("conditionType") or
m.get("type") or ""` (the receiver of `.lower()`). -/
def condTypeVal (m : PyDict) : JValue :=
  match getTruthy m "conditionType" with
  | some v => v
  | none =>
    match getTruthy m "type" with
    | some v => v
    | none => .str ""

/-- Lines 80-87 of `main.py`: the final value of the `outcomes` variable.
An `.error` result models a raised exception: `.lower()` on line 82 raises
`AttributeError` when its receiver is not a string, which happens exactly
when no outcomes were found and the resolved category value is truthy and
not a string. -/
def outcomesResolved (m : PyDict) : Except String (List String) :=
  let o := outcomesAfterNames m
  if pyFalsyOpt o then
    match condTypeVal m with
    | .str s =>
      let ct := pyLower s
      if ct = "binary" || ct = "scalar" || ct = "range" then
        .ok ["Yes", "No"]
      else
        .ok ["—", "—"]
    | _ => .error "AttributeError: object has no attribute lower"
  else
    .ok (o.getD [])

/-- `extract_title_and_outcomes` (lines 57-89 of `main.py`): the title
from the `or`-chain (lines 62-68), stringified and stripped (line 89),
paired with the resolved outcomes (lines 70-87). -/
def extract_title_and_outcomes (m : PyDict) : Except String (String × List String) :=
  match outcomesResolved m with
  | .ok os => .ok (pyStrip (pyStr (titleVal m)), os)
  | .error e => .error e

/-- An exported row (the three-column dict built on lines 107-113). -/
structure Row where
  title : String
  optA : String
  optB : String
deriving Repr, DecidableEq

/-- `build_rows` (lines 92-114 of `main.py`). The loop appends one row per
surviving record, in input order; an exception raised while normalizing
any record aborts the whole call. -/
def build_rows : List PyDict → Bool → Except String (List Row)
  | [], _ => .ok []
  | m :: rest, include_multi =>
    match extract_title_and_outcomes m with
    | .error e => .error e
    | .ok (title, outcomes) =>
      match build_rows rest include_multi with
      | .error e => .error e
      | .ok rows =>
        if outcomes.isEmpty then .ok rows
        else if !include_multi && outcomes.length ≠ 2 then .ok rows
        else
          let opt_a := if outcomes.length ≥ 1 then outcomes.headD "—" else "—"
          let opt_b := if outcomes.length ≥ 2 then (outcomes.drop 1).headD "—" else "—"
          .ok (⟨title, opt_a, opt_b⟩ :: rows)

/-- The three candidate endpoint URLs (lines 21-27 of `main.py`). -/
def GAMMA_ENDPOINTS : List String :=
  ["https://gamma-api.polymarket.com/markets?limit=1000&active=true",
   "https://gamma-api.polymarket.com/markets?limit=1000&closed=false",
   "https://gamma-api.polymarket.com/markets?limit=1000"]

/-- The observable outcome of one HTTP GET: either an exception (network
error, non-2xx status via `raise_for_status`, or JSON decode error), or a
decoded JSON document. -/
inductive Response where
  | failure (e : String)
  | success (data : JValue)

/-- Lines 47-50 of `main.py`: the list of records accepted from a decoded
document, if any — a dict with a list-valued `markets` field, or a bare
list. -/
def usableMarkets : JValue → Option (List JValue)
  | .obj fs =>
    match fs.lookup "markets" with
    | some (.list xs) => some xs
    | _ => none
  | .list xs => some xs
  | _ => none

/-- The records accepted from one endpoint attempt, if any. -/
def respMarkets : Response → Option (List JValue)
  | .failure _ => none
  | .success d => usableMarkets d

/-- The loop of `fetch_markets` (lines 40-54): walk the responses in
endpoint order carrying `last_err`; an exception updates `last_err`, a
successfully decoded but unusable document does not. The `.error` payload
is the final value of `last_err` (`none` models a `last_err` of `None`). -/
def fetchLoop : List Response → Option String → Except (Option String) (List JValue)
  | [], last => .error last
  | r :: rest, last =>
    match r with
    | .failure e => fetchLoop rest (some e)
    | .success d =>
      match usableMarkets d with
      | some ms => .ok ms
      | none => fetchLoop rest last

/-- `fetch_markets` (lines 36-54 of `main.py`), parameterized by the HTTP
response each endpoint URL would produce. -/
def fetch_markets (http : String → Response) : Except (Option String) (List JValue) :=
  fetchLoop (GAMMA_ENDPOINTS.map http) none

/-- The exceptions raised during a response list, in order. -/
def failuresOf (rs : List Response) : List String :=
  rs.filterMap fun r =>
    match r with
    | .failure e => some e
    | .success _ => none

/-- The last exception raised while walking a response list, if any. -/
def lastFailure (rs : List Response) : Option String :=
  (failuresOf rs).getLast?

/-- `write_excel` (lines 117-138 of `main.py`), parameterized by whether
the underlying workbook write (pandas/xlsxwriter, lines 126-138) would
succeed. The empty-row check on lines 118-119 raises before anything is
written. -/
def write_excel (rows : List Row) (fileWriteOk : Bool) : Except String Unit :=
  if rows.isEmpty then .error "Нет данных для записи в Excel (список пуст)."
  else if fileWriteOk then .ok () else .error "file write failed"

/-- The observable outcome of a run of `main` (lines 141-163): the process
exit status, whether the empty-result warning was printed, and whether a
workbook file was produced. `crashed` models an uncaught exception
escaping `build_rows` (Python would die with a traceback). -/
inductive MainOutcome where
  | exited (code : Nat) (warned : Bool) (wroteFile : Bool)
  | crashed (msg : String)
deriving Repr, DecidableEq

/-- `main` (lines 141-163 of `main.py`), parameterized by the fetch result
and the file-system behavior. The fetched records are taken as dicts, per
the declared type of `build_rows` (line 92). -/
def mainModel (fetchResult : Except (Option String) (List PyDict))
    (include_multi : Bool) (fileWriteOk : Bool) : MainOutcome :=
  match fetchResult with
  | .error _ => .exited 2 false false
  | .ok markets =>
    match build_rows markets include_multi with
    | .error e => .crashed e
    | .ok rows =>
      let warned := rows.isEmpty
      match write_excel rows fileWriteOk with
      | .error _ => .exited 3 warned false
      | .ok _ => .exited 0 warned true

/-! ## Spec-side definitions

These restate rules in the words of the specification, to be compared
with the code-derived definitions above. -/

/-- The outcomes component of a normalizer result, when it returned. -/
def outcomesOf : Except String (String × List String) → Option (List String)
  | .ok (_, os) => some os
  | .error _ => none

/-- The title component of a normalizer result, when it returned. -/
def titleOf : Except String (String × List String) → Option String
  | .ok (t, _) => some t
  | .error _ => none

/-- Spec-side title rule, literally as claimed: the value of the first key
among `question`, `title`, `name`, `slug` that is present with a non-null
value, stringified and trimmed; else `"Untitled Market"`. -/
def titleClaim (m : PyDict) : String :=
  match (["question", "title", "name", "slug"].filterMap fun k =>
      match dictGet m k with
      | some .null => none
      | some v => some v
      | none => none).head? with
  | some v => pyStrip (pyStr v)
  | none => "Untitled Market"

/-- Amended title rule: the first *truthy* value among `question`, `title`,
`name`, `slug` wins, stringified and trimmed; else `"Untitled Market"`. -/
def titleTruthy (m : PyDict) : String :=
  match (["question", "title", "name", "slug"].filterMap (getTruthy m)).head? with
  | some v => pyStrip (pyStr v)
  | none => "Untitled Market"

/-- Spec-side category rule of claim C4: the category field is
`conditionType` if present, else `type`. -/
def categoryClaim (m : PyDict) : Option JValue :=
  match dictGet m "conditionType" with
  | some v => some v
  | none => dictGet m "type"

/-- Spec-side row rule of claim C1 (default mode): a record contributes a
row exactly when it normalizes to exactly two outcomes, and the row is
the title with those two outcomes. -/
def rowClaim (m : PyDict) : Option Row :=
  match extract_title_and_outcomes m with
  | .ok (t, [a, b]) => some ⟨t, a, b⟩
  | _ => none

/-- Whether a fallible computation returned normally (no exception). -/
def exceptOk {ε α : Type} : Except ε α → Bool
  | .ok _ => true
  | .error _ => false

/-- The running value of the `last_err` variable of `fetch_markets` after
walking a response list, starting from `acc`: an exception overwrites it,
an unusable but successfully decoded document does not. -/
def lastErrAfter : List Response → Option String → Option String
  | [], acc => acc
  | .failure e :: rest, _ => lastErrAfter rest (some e)
  | .success _ :: rest, acc => lastErrAfter rest acc

/-! ## Helper lemmas -/

/-- Characterization of a successful normalization. -/
theorem extract_ok_iff (m : PyDict) (t : String) (os : List String) :
    extract_title_and_outcomes m = .ok (t, os) ↔
      t = pyStrip (pyStr (titleVal m)) ∧ outcomesResolved m = .ok os := by
  unfold extract_title_and_outcomes
  cases h : outcomesResolved m <;> simp [h, eq_comm, and_comm]

/-- A resolved outcomes list is never empty. -/
theorem outcomesResolved_ne_nil (m : PyDict) (os : List String)
    (h : outcomesResolved m = .ok os) : os ≠ [] := by
  intro hnil
  subst hnil
  rcases ho : outcomesAfterNames m with _ | ⟨_ | ⟨x, xs⟩⟩ <;>
    rcases hc : condTypeVal m with _ | b | n | s | ys | fs <;>
      simp [outcomesResolved, ho, hc, pyFalsyOpt] at h <;>
        split at h <;> simp at h

/-- Whenever the normalizer returns, its outcomes list is non-empty. -/
theorem extract_ok_outcomes_ne_nil (m : PyDict) (t : String) (os : List String)
    (h : extract_title_and_outcomes m = .ok (t, os)) : os ≠ [] :=
  outcomesResolved_ne_nil m os ((extract_ok_iff m t os).mp h).2

/-- The amended title rule agrees with the title the code computes. -/
theorem titleTruthy_eq (m : PyDict) :
    titleTruthy m = pyStrip (pyStr (titleVal m)) := by
  unfold titleTruthy titleVal
  rcases h1 : getTruthy m "question" with _ | v1 <;>
    rcases h2 : getTruthy m "title" with _ | v2 <;>
      rcases h3 : getTruthy m "name" with _ | v3 <;>
        rcases h4 : getTruthy m "slug" with _ | v4 <;>
          simp [List.filterMap, h1, h2, h3, h4] <;>
            rfl

/-- `build_rows` in default mode computes exactly the claimed filter-map. -/
theorem build_rows_default_eq (ms : List PyDict) (rows : List Row)
    (h : build_rows ms false = .ok rows) : rows = ms.filterMap rowClaim := by
  induction ms generalizing rows with
  | nil =>
    unfold build_rows at h
    simp only [Except.ok.injEq] at h
    simp [← h]
  | cons m rest ih =>
    unfold build_rows at h
    cases hx : extract_title_and_outcomes m with
    | error e => rw [hx] at h; exact Except.noConfusion h
    | ok p =>
      obtain ⟨t, os⟩ := p
      rw [hx] at h
      cases hr : build_rows rest false with
      | error e => rw [hr] at h; simp at h
      | ok rows2 =>
        rw [hr] at h
        have ih2 := ih rows2 hr
        rcases os with _ | ⟨a, _ | ⟨b, _ | ⟨c, r⟩⟩⟩ <;>
          simp [rowClaim, hx, ih2] at h ⊢ <;> simp [← h, ih2]

/-- The final `last_err` is the last exception raised, or the starting
value when no exception was raised. -/
theorem lastErrAfter_eq (rs : List Response) :
    ∀ acc, lastErrAfter rs acc =
      match lastFailure rs with
      | some x => some x
      | none => acc := by
  induction rs with
  | nil => intro acc; rfl
  | cons r rest ih =>
    intro acc
    cases r with
    | failure e =>
      show lastErrAfter rest (some e) = _
      rw [ih (some e)]
      have hf : failuresOf (.failure e :: rest) = e :: failuresOf rest := rfl
      unfold lastFailure
      rw [hf]
      cases hrest : failuresOf rest with
      | nil => simp
      | cons x l =>
        rw [List.getLast?_cons_cons]
        cases hg : (x :: l).getLast? with
        | some y => rfl
        | none => simp at hg
    | success d =>
      show lastErrAfter rest acc = _
      rw [ih acc]
      have hf : failuresOf (.success d :: rest) = failuresOf rest := rfl
      unfold lastFailure
      rw [hf]

/-- The fetch loop fails exactly when every remaining response is
unusable, and then its error is the final `last_err`. -/
theorem fetchLoop_error_iff (rs : List Response) :
    ∀ acc e, fetchLoop rs acc = .error e ↔
      (∀ r ∈ rs, respMarkets r = none) ∧ e = lastErrAfter rs acc := by
  induction rs with
  | nil => intro acc e; simp [fetchLoop, lastErrAfter, eq_comm]
  | cons r rest ih =>
    intro acc e
    cases r with
    | failure f =>
      show fetchLoop rest (some f) = .error e ↔ _
      rw [ih (some f) e]
      simp [respMarkets, lastErrAfter]
    | success d =>
      cases hu : usableMarkets d with
      | some ms =>
        show (match usableMarkets d with
              | some ms => Except.ok ms
              | none => fetchLoop rest acc) = .error e ↔ _
        rw [hu]
        simp [respMarkets, hu]
      | none =>
        show (match usableMarkets d with
              | some ms => Except.ok ms
              | none => fetchLoop rest acc) = .error e ↔ _
        rw [hu, ih acc e]
        simp [respMarkets, hu, lastErrAfter]

/-- A successful fetch comes from the first usable response, the earlier
ones all being unusable (short-circuit). -/
theorem fetchLoop_ok_split (rs : List Response) :
    ∀ acc ms, fetchLoop rs acc = .ok ms →
      ∃ pre r post, rs = pre ++ r :: post ∧ respMarkets r = some ms ∧
        ∀ r2 ∈ pre, respMarkets r2 = none := by
  induction rs with
  | nil => intro acc ms h; exact Except.noConfusion h
  | cons r rest ih =>
    intro acc ms h
    cases r with
    | failure f =>
      obtain ⟨pre, r1, post, hsplit, hr1, hpre⟩ := ih (some f) ms h
      refine ⟨.failure f :: pre, r1, post, by rw [hsplit]; rfl, hr1, ?_⟩
      intro r2 hr2
      rcases List.mem_cons.mp hr2 with hr2 | hr2
      · rw [hr2]; rfl
      · exact hpre r2 hr2
    | success d =>
      cases hu : usableMarkets d with
      | some ms2 =>
        have h2 : Except.ok (ε := Option String) ms2 = .ok ms := by
          rw [show fetchLoop (.success d :: rest) acc =
                (match usableMarkets d with
                 | some ms => Except.ok ms
                 | none => fetchLoop rest acc) from rfl, hu] at h
          exact h
        exact ⟨[], .success d, rest, rfl, by simp [respMarkets, hu, Except.ok.inj h2], by simp⟩
      | none =>
        rw [show fetchLoop (.success d :: rest) acc =
              (match usableMarkets d with
               | some ms => Except.ok ms
               | none => fetchLoop rest acc) from rfl, hu] at h
        obtain ⟨pre, r1, post, hsplit, hr1, hpre⟩ := ih acc ms h
        refine ⟨.success d :: pre, r1, post, by rw [hsplit]; rfl, hr1, ?_⟩
        intro r2 hr2
        rcases List.mem_cons.mp hr2 with hr2 | hr2
        · rw [hr2]; simp [respMarkets, hu]
        · exact hpre r2 hr2

/-! ## Claims -/

/-- Claim C1: with `include_multi = false`, whenever `build_rows` returns,
it keeps exactly those input records whose normalized outcomes list has
length exactly 2, maps each surviving record to the row (title,
outcomes[0], outcomes[1]), and emits rows in input record order (the
filter-map characterization); in particular the record
`{"slug": "mystery-market"}` (no outcomes, no recognized category)
normalizes to the placeholder pair and is included in default-mode
output. -/
theorem C1_default_mode_keeps_binary :
    (∀ ms rows, build_rows ms false = .ok rows → rows = ms.filterMap rowClaim) ∧
    build_rows [[("slug", .str "mystery-market")]] false =
      .ok [⟨"mystery-market", "—", "—"⟩] :=
  ⟨build_rows_default_eq, rfl⟩

/-- Witness for C1 at a concrete input: a two-outcome placeholder record
survives the default filter while a three-outcome record is dropped. -/
theorem C1_default_mode_keeps_binary_witness :
    [(⟨"mystery-market", "—", "—"⟩ : Row)] =
      List.filterMap rowClaim
        [[("slug", .str "mystery-market")],
         [("title", .str "Pick a color"),
          ("outcomes", .list [.str "Red", .str "Blue", .str "Green"])]] :=
  C1_default_mode_keeps_binary.1
    [[("slug", .str "mystery-market")],
     [("title", .str "Pick a color"),
      ("outcomes", .list [.str "Red", .str "Blue", .str "Green"])]]
    [⟨"mystery-market", "—", "—"⟩] rfl

/-- Claim C2, counterexample: the normalizer is not total. On the record
`{"conditionType": 5}` the category fallback calls `.lower()` on the
integer `5` and raises `AttributeError`. -/
theorem C2_normalizer_total_cex :
    extract_title_and_outcomes [("conditionType", .num 5)] =
      .error "AttributeError: object has no attribute lower" :=
  rfl

/-- Claim C2 as amended: the normalizer returns (raises no exception) for
every record that either has a usable outcomes list or whose resolved
category value (first truthy among `conditionType`, `type`, defaulting to
`""`) is a string — in particular whenever `conditionType` and `type` are
absent, null or strings. -/
theorem C2_normalizer_total_amended (m : PyDict)
    (h : pyFalsyOpt (outcomesAfterNames m) = false ∨ ∃ s, condTypeVal m = .str s) :
    exceptOk (extract_title_and_outcomes m) = true := by
  suffices hok : exceptOk (outcomesResolved m) = true by
    unfold extract_title_and_outcomes
    cases ho : outcomesResolved m with
    | error e => rw [ho] at hok; exact absurd hok (by simp [exceptOk])
    | ok os => simp [exceptOk]
  rcases h with h | ⟨s, hs⟩
  · simp [outcomesResolved, h, exceptOk]
  · cases hf : pyFalsyOpt (outcomesAfterNames m) with
    | false => simp [outcomesResolved, hf, exceptOk]
    | true =>
      simp only [outcomesResolved, hf, hs, if_true]
      split <;> simp [exceptOk]

/-- Witness for C2's amended theorem: the empty record normalizes without
raising. -/
theorem C2_normalizer_total_amended_witness :
    exceptOk (extract_title_and_outcomes []) = true :=
  C2_normalizer_total_amended [] (Or.inr ⟨"", rfl⟩)

/-- Claim C3, counterexample: on `{"question": "", "title": "X"}` the code
computes the title `"X"` (the empty string is falsy and is skipped by the
`or`-chain), while the claimed rule (first *present non-null* value,
trimmed) yields `""`. -/
theorem C3_title_first_nonnull_cex :
    titleOf (extract_title_and_outcomes [("question", .str ""), ("title", .str "X")]) =
        some "X" ∧
      titleClaim [("question", .str ""), ("title", .str "X")] = "" ∧
      ("X" : String) ≠ "" :=
  ⟨rfl, rfl, by decide⟩

/-- Claim C3 as amended: whenever the normalizer returns, the title is the
first *truthy* value among `question`, `title`, `name`, `slug` (so null,
`""`, `0`, `False` and empty collections are skipped), stringified and
stripped of surrounding whitespace, with `"Untitled Market"` when no key
holds a truthy value. -/
theorem C3_title_truthy_amended (m : PyDict) (t : String) (os : List String)
    (h : extract_title_and_outcomes m = .ok (t, os)) :
    t = titleTruthy m := by
  rw [((extract_ok_iff m t os).mp h).1, titleTruthy_eq]

/-- Witness for C3's amended theorem: a record whose only title-bearing
key is a padded `name` gets that value, stripped. -/
theorem C3_title_truthy_amended_witness :
    ("N" : String) = titleTruthy [("name", .str "  N  ")] :=
  C3_title_truthy_amended [("name", .str "  N  ")] "N" ["—", "—"] rfl

/-- Claim C4: a record with no usable outcomes-bearing field (neither
`outcomes` nor `outcomeNames` yields a non-empty list) whose category
field (`conditionType`, else `type`) is a string equal, case-insensitively,
to one of `binary`, `scalar`, `range`, normalizes to outcomes
`["Yes", "No"]`. -/
theorem C4_category_defaults_yes_no (m : PyDict) (s : String)
    (h1 : pyFalsyOpt (outcomesAfterNames m) = true)
    (h2 : categoryClaim m = some (.str s))
    (h3 : pyLower s = "binary" ∨ pyLower s = "scalar" ∨ pyLower s = "range") :
    outcomesOf (extract_title_and_outcomes m) = some ["Yes", "No"] := by
  have hs : s ≠ "" := by
    intro he
    subst he
    have hl : pyLower "" = "" := rfl
    rw [hl] at h3
    rcases h3 with h3 | h3 | h3 <;> simp at h3
  have hcv : condTypeVal m = .str s := by
    unfold categoryClaim at h2
    cases hct : dictGet m "conditionType" with
    | some v =>
      rw [hct] at h2
      have hv : v = .str s := Option.some.inj h2
      subst hv
      simp [condTypeVal, getTruthy, hct, truthy, hs]
    | none =>
      rw [hct] at h2
      simp only [] at h2
      simp [condTypeVal, getTruthy, hct, h2, truthy, hs]
  have hres : outcomesResolved m = .ok ["Yes", "No"] := by
    rcases h3 with h3 | h3 | h3 <;> simp [outcomesResolved, h1, hcv, h3]
  simp [extract_title_and_outcomes, hres, outcomesOf]

/-- Witness for C4: `{"type": "Binary"}` has no outcomes data and a
recognized category, so it normalizes to `["Yes", "No"]`. -/
theorem C4_category_defaults_yes_no_witness :
    outcomesOf (extract_title_and_outcomes [("type", .str "Binary")]) =
      some ["Yes", "No"] :=
  C4_category_defaults_yes_no [("type", .str "Binary")] "Binary" rfl rfl (Or.inl rfl)

/-- Claim C5: whenever the normalizer returns, its outcomes list is
non-empty; and when no lookup finds outcome data (no outcomes-bearing
field, and the category value is a string outside the recognized set) the
two-element placeholder pair is substituted. -/
theorem C5_outcomes_never_empty :
    (∀ m t os, extract_title_and_outcomes m = .ok (t, os) → os ≠ []) ∧
    (∀ m s, pyFalsyOpt (outcomesAfterNames m) = true → condTypeVal m = .str s →
      pyLower s ≠ "binary" → pyLower s ≠ "scalar" → pyLower s ≠ "range" →
      outcomesOf (extract_title_and_outcomes m) = some ["—", "—"]) := by
  constructor
  · exact extract_ok_outcomes_ne_nil
  · intro m s h1 h2 hb hsc hr
    have hres : outcomesResolved m = .ok ["—", "—"] := by
      simp [outcomesResolved, h1, h2, hb, hsc, hr]
    simp [extract_title_and_outcomes, hres, outcomesOf]

/-- Witness for C5 at the empty record: the placeholder pair is produced
and is indeed non-empty. -/
theorem C5_outcomes_never_empty_witness :
    (["—", "—"] : List String) ≠ [] ∧
      outcomesOf (extract_title_and_outcomes [("foo", .num 1)]) = some ["—", "—"] :=
  ⟨C5_outcomes_never_empty.1 [("foo", .num 1)] "Untitled Market" ["—", "—"] rfl,
   C5_outcomes_never_empty.2 [("foo", .num 1)] "" rfl rfl (by decide) (by decide) (by decide)⟩

/-- Claim C6: a record normalizing to more than two outcomes is excluded
by `build_rows` in default mode, while `include_multi = true` yields one
row holding the title and exactly the first two outcomes (the rest are
dropped). -/
theorem C6_multi_keeps_first_two (m : PyDict) (t : String) (os : List String)
    (h : extract_title_and_outcomes m = .ok (t, os)) (hlen : 2 < os.length) :
    build_rows [m] false = .ok [] ∧
    build_rows [m] true = .ok [⟨t, os.headD "—", (os.drop 1).headD "—"⟩] := by
  rcases os with _ | ⟨a, _ | ⟨b, _ | ⟨c, r⟩⟩⟩ <;> simp at hlen
  exact ⟨by simp [build_rows, h], by simp [build_rows, h]⟩

/-- Witness for C6: the three-outcome record from the spec's Scenario 2. -/
theorem C6_multi_keeps_first_two_witness :
    build_rows [[("title", .str "Pick a color"),
                 ("outcomes", .list [.str "Red", .str "Blue", .str "Green"])]] false =
        .ok [] ∧
      build_rows [[("title", .str "Pick a color"),
                   ("outcomes", .list [.str "Red", .str "Blue", .str "Green"])]] true =
        .ok [⟨"Pick a color", "Red", "Blue"⟩] :=
  C6_multi_keeps_first_two
    [("title", .str "Pick a color"),
     ("outcomes", .list [.str "Red", .str "Blue", .str "Green"])]
    "Pick a color" ["Red", "Blue", "Green"] rfl (by decide)

/-- Claim C8: for any behavior of the network, `fetch_markets` tries the
candidate endpoints in order and (a) a successful result comes from the
first endpoint whose response is usable — an object with a list-valued
`markets` field or a bare list — with every earlier response unusable
(short-circuit); (b) it raises exactly when every candidate endpoint fails
to yield a usable list; (c) the raised error wraps the last underlying
error encountered (`none` when every response decoded but was unusable,
modelling a `last_err` of `None`). -/
theorem C8_fetch_first_usable (http : String → Response) :
    (∀ ms, fetch_markets http = .ok ms →
      ∃ pre r post, GAMMA_ENDPOINTS.map http = pre ++ r :: post ∧
        respMarkets r = some ms ∧ ∀ r2 ∈ pre, respMarkets r2 = none) ∧
    ((∃ e, fetch_markets http = .error e) ↔
      ∀ r ∈ GAMMA_ENDPOINTS.map http, respMarkets r = none) ∧
    (∀ e, fetch_markets http = .error e →
      e = lastFailure (GAMMA_ENDPOINTS.map http)) := by
  refine ⟨?_, ⟨?_, ?_⟩, ?_⟩
  · intro ms h
    exact fetchLoop_ok_split (GAMMA_ENDPOINTS.map http) none ms h
  · rintro ⟨e, he⟩
    exact ((fetchLoop_error_iff (GAMMA_ENDPOINTS.map http) none e).mp he).1
  · intro hall
    exact ⟨lastErrAfter (GAMMA_ENDPOINTS.map http) none,
      (fetchLoop_error_iff (GAMMA_ENDPOINTS.map http) none _).mpr ⟨hall, rfl⟩⟩
  · intro e he
    have h2 := ((fetchLoop_error_iff (GAMMA_ENDPOINTS.map http) none e).mp he).2
    rw [h2, lastErrAfter_eq (GAMMA_ENDPOINTS.map http) none]
    cases hl : lastFailure (GAMMA_ENDPOINTS.map http) <;> simp
  
/-- Witness for C8: when every endpoint raises the same network error, the
fetch error wraps that (last) error. -/
theorem C8_fetch_first_usable_witness :
    (some "connection error" : Option String) =
      lastFailure (GAMMA_ENDPOINTS.map fun _ => .failure "connection error") :=
  (C8_fetch_first_usable (fun _ => .failure "connection error")).2.2
    (some "connection error") rfl

/-- Claim C9: `write_excel` fails whenever the row list is empty
(regardless of the file system) and whenever the underlying file write
fails; consequently, when the fetch succeeds and every record is filtered
out, `main` prints the warning, attempts the write, exits with status 3,
and writes no workbook. -/
theorem C9_empty_rows_exit_3 :
    (∀ wOk, write_excel [] wOk =
      .error "Нет данных для записи в Excel (список пуст).") ∧
    (∀ rows, write_excel rows false ≠ .ok ()) ∧
    (∀ ms im wOk, build_rows ms im = .ok [] →
      mainModel (.ok ms) im wOk = .exited 3 true false) := by
  refine ⟨fun wOk => rfl, ?_, ?_⟩
  · intro rows h
    cases rows with
    | nil => exact Except.noConfusion h
    | cons r rest => simp [write_excel] at h
  · intro ms im wOk h
    simp [mainModel, h, write_excel]

/-- Witness for C9: a fetch returning one three-outcome record in default
mode: the record is filtered out, the empty write fails, exit status 3. -/
theorem C9_empty_rows_exit_3_witness :
    mainModel (.ok [[("outcomes", .list [.str "A", .str "B", .str "C"])]]) false true =
      .exited 3 true false :=
  C9_empty_rows_exit_3.2.2 [[("outcomes", .list [.str "A", .str "B", .str "C"])]]
    false true rfl

/-- Claim C10: with `include_multi = true`, whenever `build_rows` returns
it produces exactly one row per input record (normalization never yields
an empty outcomes list, so no record is skipped). -/
theorem C10_include_multi_one_row_each (ms : List PyDict) (rows : List Row)
    (h : build_rows ms true = .ok rows) : rows.length = ms.length := by
  induction ms generalizing rows with
  | nil =>
    unfold build_rows at h
    simp only [Except.ok.injEq] at h
    simp [← h]
  | cons m rest ih =>
    unfold build_rows at h
    cases hx : extract_title_and_outcomes m with
    | error e => rw [hx] at h; exact Except.noConfusion h
    | ok p =>
      obtain ⟨t, os⟩ := p
      rw [hx] at h
      cases hr : build_rows rest true with
      | error e => rw [hr] at h; simp at h
      | ok rows2 =>
        rw [hr] at h
        have hne := extract_ok_outcomes_ne_nil m t os hx
        have hos : os.isEmpty = false := by
          cases os with
          | nil => exact absurd rfl hne
          | cons a l => rfl
        simp [hos] at h
        simp [← h, ih rows2 hr]

/-- Witness for C10: two records (a placeholder one and a three-outcome
one) produce exactly two rows with `include_multi = true`. -/
theorem C10_include_multi_one_row_each_witness :
    ([⟨"mystery-market", "—", "—"⟩, ⟨"Pick a color", "Red", "Blue"⟩] : List Row).length =
      ([[("slug", .str "mystery-market")],
        [("title", .str "Pick a color"),
         ("outcomes", .list [.str "Red", .str "Blue", .str "Green"])]] : List PyDict).length :=
  C10_include_multi_one_row_each
    [[("slug", .str "mystery-market")],
     [("title", .str "Pick a color"),
      ("outcomes", .list [.str "Red", .str "Blue", .str "Green"])]]
    [⟨"mystery-market", "—", "—"⟩, ⟨"Pick a color", "Red", "Blue"⟩] rfl
